import Mathlib

/-!
Verification development for the Lumos smart-home orchestration core.

This file gives a shallow embedding, in Lean 4, of the orchestration and
constraint-enforcement engine of the repository:

* device simulators (`src/devices/*.py`): device state, per-type action
  processing (`_process_action`), the registry;
* the plan executor (`OrchestratorAgent._execute_action_plan` in
  `src/agents/orchestrator.py`) together with its hardcoded protected-device
  check and the user-constraint block list derived from approved global
  patterns (`_is_prohibition_pattern`, `_get_blocked_actions_from_patterns`);
* device-state snapshot and restore (`_snapshot_device_states`,
  `_restore_from_snapshot`);
* threat de-duplication (`_handle_threat`);
* the permission handshake of the voice agent (`VoiceAgent.run`,
  `VoiceAgent.handle_permission_response`);
* user-taught pattern learning of the pattern detector
  (`PatternDetectorAgent.learn_user_preference`, `_create_new_pattern`,
  `_update_existing_pattern`, `_find_matching_user_pattern`) and the
  readiness predicate `DetectedPattern.is_ready_to_suggest`
  (`src/models/pattern.py`).

Conventions of the embedding: Python floats that only ever carry small exact
decimals in this code base are modelled as rationals (`ℚ`); Python dicts used
as string-keyed property maps are modelled as insertion-ordered association
lists; wall-clock timestamps are abstract `Nat` ticks; the LLM planner is an
external collaborator and its outputs are therefore explicit parameters of
the embedded functions; the simulated random device failure and the network
delay of `BaseDevice.execute_action` are not modelled (failure probability is
0 unless a simulation override sets it, and no claim concerns overrides).
-/

/-- Property values stored in a device's `properties` dict
(`src/models/device.py`, `DeviceState.properties: dict[str, Any]`).
Numeric Python values (ints and the small exact-decimal floats used by the
simulators) are modelled as `ℚ`; `rgb` models the nested colour dict of the
light simulator; `null` models Python `None`. -/
inductive DVal where
  | num (q : ℚ)
  | str (s : String)
  | bool (b : Bool)
  | rgb (r g b : ℚ)
  | null
deriving DecidableEq

/-- `priority_tier` of a device (`src/models/device.py`, `PriorityTier`). -/
inductive PriorityTier where
  | critical
  | high
  | medium
  | low
  | optional
deriving DecidableEq

/-- Device type (`src/models/device.py`, `DeviceType`). -/
inductive DeviceType where
  | light
  | thermostat
  | lock
  | battery
  | coffeeMaker
  | sensor
  | smartPlug
  | waterHeater
deriving DecidableEq

/-- Association-list lookup for a property dict (`properties.get(k)` /
`k in properties`). -/
def getProp (props : List (String × DVal)) (k : String) : Option DVal :=
  (props.find? (fun kv => kv.1 == k)).map (fun kv => kv.2)

/-- Membership test `k in properties`. -/
def hasProp (props : List (String × DVal)) (k : String) : Bool :=
  props.any (fun kv => kv.1 == k)

/-- Python dict assignment `properties[k] = v`: update in place if the key
exists, otherwise append (insertion order preserved). -/
def setProp (props : List (String × DVal)) (k : String) (v : DVal) :
    List (String × DVal) :=
  if props.any (fun kv => kv.1 == k) then
    props.map (fun kv => if kv.1 == k then (k, v) else kv)
  else
    props ++ [(k, v)]

/-- `properties.get(k, d)` for a numeric property. Non-numeric values under a
numeric key do not occur in the modelled flows. -/
def getNumD (props : List (String × DVal)) (k : String) (d : ℚ) : ℚ :=
  match getProp props k with
  | some (DVal.num q) => q
  | _ => d

/-- `properties.get(k, d)` for a string property. -/
def getStrD (props : List (String × DVal)) (k : String) (d : String) : String :=
  match getProp props k with
  | some (DVal.str s) => s
  | _ => d

/-- `properties.get(k, d)` for a boolean property. -/
def getBoolD (props : List (String × DVal)) (k : String) (d : Bool) : Bool :=
  match getProp props k with
  | some (DVal.bool b) => b
  | _ => d

/-- A simulated device: the fields of `DeviceState` that the orchestration
flows read or write (`src/devices/base.py`). `online` combines
`state.online` and `not _forced_offline` (`BaseDevice.is_online`). -/
structure Device where
  deviceId : String
  dtype : DeviceType
  online : Bool
  power : Bool
  props : List (String × DVal)
  priorityTier : PriorityTier
deriving DecidableEq

/-- Result dict of `execute_action` as far as callers consume it:
`{"success": bool, "error": str?}`. Extra informational keys of the Python
result dicts are not read by the orchestrator and are omitted. -/
structure ExecResult where
  success : Bool
  error : String
deriving DecidableEq

/-- Successful result. -/
def ExecResult.ok : ExecResult := ⟨true, ""⟩

/-- Failed result with an error message. -/
def ExecResult.fail (e : String) : ExecResult := ⟨false, e⟩

/-- `LightDevice._process_action` (`src/devices/light.py`). -/
def lightProcess (d : Device) (a : String) (params : List (String × DVal)) :
    Device × ExecResult :=
  if a == "on" then
    let b := getNumD params "brightness" 100
    let b := max 1 (min 100 b)
    ({ d with power := true, props := setProp d.props "brightness" (DVal.num b) },
     ExecResult.ok)
  else if a == "off" then
    ({ d with power := false, props := setProp d.props "brightness" (DVal.num 0) },
     ExecResult.ok)
  else if a == "dim" then
    let level := getNumD params "brightness" 50
    let level := max 0 (min 100 level)
    ({ d with power := decide (0 < level),
              props := setProp d.props "brightness" (DVal.num level) },
     ExecResult.ok)
  else if a == "color" then
    let r := max 0 (min 255 (getNumD params "r" 255))
    let g := max 0 (min 255 (getNumD params "g" 255))
    let b := max 0 (min 255 (getNumD params "b" 255))
    let d1 := { d with props := setProp d.props "color" (DVal.rgb r g b) }
    if !d.power then
      ({ d1 with power := true,
                 props := setProp d1.props "brightness" (DVal.num 100) },
       ExecResult.ok)
    else
      (d1, ExecResult.ok)
  else
    (d, ExecResult.fail ("Unknown action: " ++ a))

/-- Valid thermostat modes (`ThermostatMode` in `src/models/device.py`). -/
def thermostatModes : List String := ["heat", "cool", "auto", "eco", "off"]

/-- `ThermostatDevice._process_action` (`src/devices/thermostat.py`).
Note the source's `eco_mode` branch sets `mode` to `"eco"` before reading
`mode` back for its cool/heat test, so the cool branch of that test is
unreachable; the embedding reproduces this by reading the updated props. -/
def thermostatProcess (d : Device) (a : String)
    (params : List (String × DVal)) : Device × ExecResult :=
  if a == "set_temperature" then
    let temp := getNumD params "temperature" 72
    if temp < 60 || 85 < temp then
      (d, ExecResult.fail "Temperature must be between 60F and 85F")
    else
      ({ d with props := setProp d.props "target_temp_f" (DVal.num temp) },
       ExecResult.ok)
  else if a == "set_mode" then
    let mode := getStrD params "mode" "auto"
    if thermostatModes.contains mode then
      ({ d with props := setProp d.props "mode" (DVal.str mode),
                power := mode != "off" },
       ExecResult.ok)
    else
      (d, ExecResult.fail ("Invalid mode: " ++ mode))
  else if a == "eco_mode" then
    let props1 := setProp d.props "mode" (DVal.str "eco")
    let current := getNumD props1 "target_temp_f" 0
    let props2 :=
      if getStrD props1 "mode" "" == "cool" then
        setProp props1 "target_temp_f" (DVal.num (min (current + 3) 85))
      else
        setProp props1 "target_temp_f" (DVal.num (max (current - 3) 60))
    ({ d with props := props2 }, ExecResult.ok)
  else
    (d, ExecResult.fail ("Unknown action: " ++ a))

/-- `LockDevice._drain_battery` (`src/devices/lock.py`). The Python
`round(·, 1)` is the identity here because all stored values stay at one
decimal place. -/
def lockDrainBattery (props : List (String × DVal)) (amount : ℚ) :
    List (String × DVal) :=
  let current := getNumD props "battery_pct" 100
  setProp props "battery_pct" (DVal.num (max 0 (current - amount)))

/-- `LockDevice._process_action` (`src/devices/lock.py`). -/
def lockProcess (d : Device) (a : String) (_params : List (String × DVal)) :
    Device × ExecResult :=
  if a == "lock" then
    let p1 := setProp d.props "locked" (DVal.bool true)
    let p2 := setProp p1 "last_activity" (DVal.str "locked")
    ({ d with props := lockDrainBattery p2 (1/10) }, ExecResult.ok)
  else if a == "unlock" then
    let p1 := setProp d.props "locked" (DVal.bool false)
    let p2 := setProp p1 "last_activity" (DVal.str "unlocked")
    ({ d with props := lockDrainBattery p2 (2/10) }, ExecResult.ok)
  else if a == "status" then
    (d, ExecResult.ok)
  else
    (d, ExecResult.fail ("Unknown action: " ++ a))

/-- `SmartPlugDevice._process_action` (`src/devices/smart_plug.py`). -/
def smartPlugProcess (d : Device) (a : String)
    (_params : List (String × DVal)) : Device × ExecResult :=
  if a == "on" then
    ({ d with power := true, props := setProp d.props "relay_on" (DVal.bool true) },
     ExecResult.ok)
  else if a == "off" then
    let p1 := setProp d.props "relay_on" (DVal.bool false)
    let p2 := setProp p1 "current_amps" (DVal.num 0)
    ({ d with power := false, props := p2 }, ExecResult.ok)
  else if a == "monitor" then
    (d, ExecResult.ok)
  else
    (d, ExecResult.fail ("Unknown action: " ++ a))

/-- Per-type dispatch of `_process_action`. The battery, coffee-maker,
water-heater and sensor simulators are never commanded in any flow a claim
depends on (snapshot restore skips sensors and batteries, and no claim
executes an action on the other two types), so they fall back to the base
class's unknown-action answer (`BaseDevice._process_action`). -/
def processAction (d : Device) (a : String) (params : List (String × DVal)) :
    Device × ExecResult :=
  match d.dtype with
  | DeviceType.light => lightProcess d a params
  | DeviceType.thermostat => thermostatProcess d a params
  | DeviceType.lock => lockProcess d a params
  | DeviceType.smartPlug => smartPlugProcess d a params
  | _ => (d, ExecResult.fail ("Unknown action: " ++ a))

/-- `BaseDevice.execute_action` (`src/devices/base.py`), with failure
probability 0 and no simulated delay: offline check, then `_process_action`. -/
def deviceExecuteAction (d : Device) (a : String)
    (params : List (String × DVal)) : Device × ExecResult :=
  if !d.online then
    (d, ExecResult.fail "Device is offline")
  else
    processAction d a params

/-- The device registry (`DeviceRegistry._devices`, `src/devices/registry.py`):
an insertion-ordered map from device id to device. -/
abbrev Registry := List Device

/-- `DeviceRegistry.get_device`. -/
def regGet (reg : Registry) (deviceId : String) : Option Device :=
  reg.find? (fun d => d.deviceId == deviceId)

/-- Replace the first element satisfying `pred` by its image under `f`
(models in-place mutation of the object found by a lookup). -/
def updateFirst (pred : α → Bool) (f : α → α) : List α → List α
  | [] => []
  | x :: xs => if pred x then f x :: xs else x :: updateFirst pred f xs

/-- Write back a device's mutated state into the registry. -/
def regPut (reg : Registry) (deviceId : String) (d : Device) : Registry :=
  updateFirst (fun x => x.deviceId == deviceId) (fun _ => d) reg

/-- `DeviceRegistry.get_critical_device_ids` (`src/devices/registry.py`):
device ids whose `priority_tier` is critical. -/
def getCriticalDeviceIds (reg : Registry) : List String :=
  (reg.filter (fun d => d.priorityTier == PriorityTier.critical)).map
    (fun d => d.deviceId)

/-- `HomeStateAgent.execute_action` (`src/agents/home_state.py`): registry
lookup, then the device's `execute_action`; unknown devices yield
`{"success": False, "error": "Device not found: ..."}`. -/
def homeStateExecute (reg : Registry) (deviceId action : String)
    (params : List (String × DVal)) : Registry × ExecResult :=
  match regGet reg deviceId with
  | none => (reg, ExecResult.fail ("Device not found: " ++ deviceId))
  | some d =>
      let (d1, res) := deviceExecuteAction d action params
      (regPut reg deviceId d1, res)

/-- `pattern_type` (`src/models/pattern.py`, `PatternType`). -/
inductive PatternType where
  | routine
  | preference
  | energy
  | userDefined
deriving DecidableEq

/-- One action of a pattern's `action_sequence`
(`src/models/pattern.py`, `PatternAction`). -/
structure PatternAction where
  deviceId : String
  action : String
  parameters : List (String × DVal) := []
  delaySeconds : ℚ := 0
deriving DecidableEq

/-- The `trigger_conditions` dict as the pattern-learning code writes it:
`{"type": trigger_type, "value": trigger_value}`
(`PatternDetectorAgent._create_new_pattern`). -/
structure TriggerConditions where
  ttype : String
  tvalue : String
deriving DecidableEq

/-- `DetectedPattern` (`src/models/pattern.py`); timestamps are abstract
`Nat` ticks. -/
structure DetectedPattern where
  patternId : String
  patternType : PatternType
  displayName : String := ""
  description : String := ""
  frequency : Nat := 0
  confidence : ℚ := 0
  trigger : TriggerConditions
  actionSequence : List PatternAction := []
  approved : Bool := false
  lastOccurrence : Nat := 0
  createdAt : Nat := 0
  sourceUtterance : String := ""
deriving DecidableEq

/-- `DetectedPattern.is_ready_to_suggest` (`src/models/pattern.py`):
user-defined patterns are always ready; otherwise `frequency >= 3 and
confidence >= 0.8`. -/
def isReadyToSuggest (p : DetectedPattern) : Bool :=
  if p.patternType == PatternType.userDefined then
    true
  else
    decide (3 ≤ p.frequency) && decide ((0.8 : ℚ) ≤ p.confidence)

/-- A statistically-detected pattern as built by
`PatternDetectorAgent._rule_based_detection` / `_llm_pattern_detection`:
the `DetectedPattern(...)` constructor calls there never pass `approved`,
so it takes the model's default `False`. -/
def mkStatisticalPattern (pid : String) (ptype : PatternType)
    (name desc : String) (freq : Nat) (conf : ℚ)
    (trigger : TriggerConditions) (actions : List PatternAction) :
    DetectedPattern :=
  { patternId := pid, patternType := ptype, displayName := name,
    description := desc, frequency := freq, confidence := conf,
    trigger := trigger, actionSequence := actions }

/-- `PatternDetectorAgent.get_global_constraints`: all approved patterns
whose trigger type is `"global"`. -/
def getGlobalConstraints (ps : List DetectedPattern) : List DetectedPattern :=
  ps.filter (fun p => p.approved && p.trigger.ttype == "global")

/-- Word characters of the regex `\b` boundary (`[a-zA-Z0-9_]`; the inputs
of this code base are ASCII). -/
def isWordChar (c : Char) : Bool :=
  c.isAlphanum || c == '_'

/-- The apostrophe character (used by the keyword spelled d-o-n-apostrophe-t). -/
def apos : Char := Char.ofNat 39

/-- The prohibition keywords of `OrchestratorAgent._PROHIBITION_RE`
(`src/agents/orchestrator.py`): never, do-not (contracted), do not,
prohibit, block, prevent, forbid. -/
def prohibitionKeywords : List (List Char) :=
  [['n','e','v','e','r'],
   ['d','o','n',apos,'t'],
   ['d','o',' ','n','o','t'],
   ['p','r','o','h','i','b','i','t'],
   ['b','l','o','c','k'],
   ['p','r','e','v','e','n','t'],
   ['f','o','r','b','i','d']]

/-- `kw` matches at the head of `text`, and the character following the
match (if any) is not a word character — the trailing `\b` of the regex
(every keyword ends in a word character). -/
def matchKeywordAt : List Char → List Char → Bool
  | [], [] => true
  | [], c :: _ => !(isWordChar c)
  | _ :: _, [] => false
  | k :: ks, c :: cs => k == c && matchKeywordAt ks cs

/-- The leading `\b`: the previous character (if any) is not a word
character (every keyword starts with a word character). -/
def boundaryOk : Option Char → Bool
  | none => true
  | some p => !(isWordChar p)

/-- Scan `text` for a whole-word occurrence of `kw`, carrying the previous
character for the leading boundary test. -/
def scanKeyword (kw : List Char) : Option Char → List Char → Bool
  | _, [] => false
  | prev, c :: cs =>
      (boundaryOk prev && matchKeywordAt kw (c :: cs)) ||
        scanKeyword kw (some c) cs

/-- `_PROHIBITION_RE.search(text)` (case-insensitive whole-word search for
any prohibition keyword): the `re.IGNORECASE` flag is modelled by
lower-casing the text (the keywords are already lower-case). -/
def prohibitionSearch (text : String) : Bool :=
  prohibitionKeywords.any
    (fun kw => scanKeyword kw none (text.toList.map Char.toLower))

/-- `OrchestratorAgent._is_prohibition_pattern`: search
`description + " " + source_utterance`. -/
def isProhibitionPattern (p : DetectedPattern) : Bool :=
  prohibitionSearch (p.description ++ " " ++ p.sourceUtterance)

/-- Membership in the block map built by
`OrchestratorAgent._get_blocked_actions_from_patterns`: the map sends
`device_id` to the set of action names occurring in the `action_sequence`
of some approved global pattern classified as a prohibition, so
`(d, a)` is blocked iff such a pattern contains the pair. -/
def patternBlocked (ps : List DetectedPattern) (d a : String) : Bool :=
  (getGlobalConstraints ps).any
    (fun p => isProhibitionPattern p &&
      p.actionSequence.any (fun act => act.deviceId == d && act.action == a))

/-- `OrchestratorAgent._PROTECTED_DEVICE_IDS` (`src/agents/orchestrator.py`):
the hardcoded ids that the executor never turns off. -/
def PROTECTED_DEVICE_IDS : List String := ["plug_kitchen_fridge"]

/-- One entry of an LLM-proposed action list, after the executor's
`action.get("device_id", "")` / `action.get("action", "")` /
`action.get("parameters") or {}` reads. -/
structure ActionSpec where
  deviceId : String
  actionName : String
  parameters : List (String × DVal) := []
deriving DecidableEq

/-- Rendering of a non-empty parameter dict appended to an executed-action
description (Python interpolates the dict's repr; no claim inspects this
text, only that it is appended exactly when parameters are present). -/
def paramsRepr (params : List (String × DVal)) : String :=
  "(" ++ String.intercalate ", " (params.map (fun kv => kv.1)) ++ ")"

/-- `OrchestratorAgent._execute_action_plan` (`src/agents/orchestrator.py`):
for each action in order — reject empty device or action fields, reject
`off` on a hardcoded protected device as "BLOCKED (critical device)",
reject pairs blocked by user global prohibition patterns as
"BLOCKED (user constraint)", otherwise call
`home_state_agent.execute_action` and record success or failure. A failed
action never aborts the remaining ones. Returns the final registry and the
`(executed, failed)` description lists. -/
def executeActionPlan (ps : List DetectedPattern) (reg : Registry) :
    List ActionSpec → Registry × List String × List String
  | [] => (reg, [], [])
  | act :: rest =>
    if act.deviceId == "" || act.actionName == "" then
      let (r, ex, fl) := executeActionPlan ps reg rest
      (r, ex, ("Invalid action spec: " ++ act.deviceId ++ "." ++ act.actionName) :: fl)
    else if PROTECTED_DEVICE_IDS.contains act.deviceId && act.actionName == "off" then
      let (r, ex, fl) := executeActionPlan ps reg rest
      (r, ex, (act.deviceId ++ ".off: BLOCKED (critical device)") :: fl)
    else if patternBlocked ps act.deviceId act.actionName then
      let (r, ex, fl) := executeActionPlan ps reg rest
      (r, ex, (act.deviceId ++ "." ++ act.actionName ++ ": BLOCKED (user constraint)") :: fl)
    else
      let (reg1, res) := homeStateExecute reg act.deviceId act.actionName act.parameters
      let (r, ex, fl) := executeActionPlan ps reg1 rest
      if res.success then
        let desc := act.deviceId ++ "." ++ act.actionName ++
          (if act.parameters.isEmpty then "" else paramsRepr act.parameters)
        (r, desc :: ex, fl)
      else
        (r, ex, (act.deviceId ++ "." ++ act.actionName ++ ": " ++ res.error) :: fl)

/-- One entry of the pre-mode device snapshot
(`OrchestratorAgent._snapshot_device_states`): `(power, properties,
device_type)` of a device. -/
structure SnapEntry where
  power : Bool
  properties : List (String × DVal)
  deviceType : DeviceType
deriving DecidableEq

/-- `_snapshot_device_states`: snapshot every registered device, in registry
(insertion) order. -/
def snapshotDeviceStates (reg : Registry) : List (String × SnapEntry) :=
  reg.map (fun d => (d.deviceId, ⟨d.power, d.props, d.dtype⟩))

/-- The per-entry body of `OrchestratorAgent._restore_from_snapshot`:
given the registry, a device id and its saved snapshot entry, perform the
power branch, the thermostat-settings branch and the lock branch, returning
the updated registry and the executed-action descriptions of this entry.
Unknown devices and sensor/battery entries are skipped by the caller. -/
def restoreEntry (reg : Registry) (deviceId : String) (saved : SnapEntry)
    (device : Device) : Registry × List String :=
  let savedPower := saved.power
  let savedProps := saved.properties
  -- power branch
  let (reg1, ex1) :=
    if savedPower && !device.power then
      let params :=
        if hasProp savedProps "brightness" && device.dtype == DeviceType.light then
          [("brightness", (getProp savedProps "brightness").getD DVal.null)]
        else
          []
      let (r, res) := homeStateExecute reg deviceId "on" params
      (r, if res.success then [deviceId ++ ".on" ++ paramsRepr params] else [])
    else if !savedPower && device.power then
      let (r, res) := homeStateExecute reg deviceId "off" []
      (r, if res.success then [deviceId ++ ".off"] else [])
    else
      (reg, [])
  -- thermostat branch: note the source looks up the key "target_temperature"
  -- in the saved properties, while the thermostat simulator stores its
  -- target under "target_temp_f"
  let (reg2, ex2) :=
    if device.dtype == DeviceType.thermostat then
      let reg1a :=
        if hasProp savedProps "target_temperature" then
          (homeStateExecute reg1 deviceId "set_temperature"
            [("temperature", (getProp savedProps "target_temperature").getD DVal.null)]).1
        else
          reg1
      if hasProp savedProps "mode" then
        let (r, res) := homeStateExecute reg1a deviceId "set_mode"
          [("mode", (getProp savedProps "mode").getD DVal.null)]
        (r, if res.success then
              [deviceId ++ ".set_mode(" ++ getStrD savedProps "mode" "" ++ ")"]
            else [])
      else
        (reg1a, [])
    else
      (reg1, [])
  -- lock branch
  let (reg3, ex3) :=
    if device.dtype == DeviceType.lock then
      let isLocked := getBoolD savedProps "locked" false
      let action := if isLocked then "lock" else "unlock"
      let (r, res) := homeStateExecute reg2 deviceId action []
      (r, if res.success then [deviceId ++ "." ++ action] else [])
    else
      (reg2, [])
  (reg3, ex1 ++ ex2 ++ ex3)

/-- `OrchestratorAgent._restore_from_snapshot`: walk the snapshot entries in
order; skip ids no longer in the registry and skip sensor/battery devices;
each remaining entry is restored by `restoreEntry`. Every device command is
issued directly through `home_state_agent.execute_action` — not through
`_execute_action_plan`. -/
def restoreFromSnapshot (reg : Registry) :
    List (String × SnapEntry) → Registry × List String
  | [] => (reg, [])
  | (deviceId, saved) :: rest =>
    match regGet reg deviceId with
    | none => restoreFromSnapshot reg rest
    | some device =>
      if device.dtype == DeviceType.sensor || device.dtype == DeviceType.battery then
        restoreFromSnapshot reg rest
      else
        let (reg1, ex1) := restoreEntry reg deviceId saved device
        let (reg2, ex2) := restoreFromSnapshot reg1 rest
        (reg2, ex1 ++ ex2)

/-- The wait timeout of the permission handshake
(`asyncio.wait_for(future, timeout=60.0)` in `VoiceAgent.run`). -/
def permissionTimeoutSeconds : Nat := 60

/-- The permission-handshake state of the voice agent: the ids that have a
pending future in `VoiceAgent._pending_permissions`. -/
structure VoiceState where
  pendingPermissions : List String
deriving DecidableEq

/-- Outcome of a resolved permission wait, as `VoiceAgent.run` returns it:
`approved`, and whether the wait timed out (the `"timeout": True` marker). -/
structure PermissionOutcome where
  alertId : String
  approved : Bool
  timedOut : Bool
deriving DecidableEq

/-- The registration step of `VoiceAgent.run` when `require_permission` is
true: `self._pending_permissions[aid] = future`. -/
def registerPermissionWait (st : VoiceState) (aid : String) : VoiceState :=
  ⟨st.pendingPermissions ++ [aid]⟩

/-- The timeout branch of the wait in `VoiceAgent.run`: after 60 seconds
with no response, the pending entry is deleted, a `voice_alert_timeout`
notification is broadcast (the returned flag), and the call resolves
`approved=False` with the timed-out marker. -/
def resolvePermissionTimeout (st : VoiceState) (aid : String) :
    VoiceState × PermissionOutcome × Bool :=
  (⟨st.pendingPermissions.erase aid⟩, ⟨aid, false, true⟩, true)

/-- `VoiceAgent.handle_permission_response` together with the resumption of
the waiting `run` call it resolves (§5 of the spec: the single logical
thread makes resolution and the waiter's removal of the pending entry one
step): a response to an id with no pending entry is rejected (`False`, no
state change, nothing resolved); otherwise the future is resolved with the
response, the waiter removes the entry and returns the outcome. -/
def handlePermissionResponse (st : VoiceState) (aid : String)
    (approved : Bool) : VoiceState × Bool × Option PermissionOutcome :=
  if st.pendingPermissions.contains aid then
    (⟨st.pendingPermissions.erase aid⟩, true, some ⟨aid, approved, false⟩)
  else
    (st, false, none)

/-- The threat-assessment fields `_handle_threat` reads
(`src/models/threat.py` values are plain strings here). -/
structure ThreatAssessmentModel where
  threatType : String
  threatLevel : String
  requiresPermission : Bool
deriving DecidableEq

/-- The de-duplication key of `OrchestratorAgent._handle_threat`:
`f"{threat_type}_{threat_level}"`. -/
def threatKey (t : ThreatAssessmentModel) : String :=
  t.threatType ++ "_" ++ t.threatLevel

/-- One record of `OrchestratorAgent._decision_history` as `_handle_threat`
appends and reads it (`threat_key`, `actions_executed`). -/
structure DecisionRecordModel where
  recordKey : String
  actionsExecuted : Bool
deriving DecidableEq

/-- Python `l[-n:]`: the last `n` elements. -/
def lastN (n : Nat) (l : List α) : List α :=
  l.drop (l.length - n)

/-- The externally visible effects of one `_handle_threat` call: whether a
voice alert was issued and whether the threat-response plan was executed. -/
structure ThreatEffect where
  alertIssued : Bool
  planExecuted : Bool
deriving DecidableEq

/-- The no-op effect of a de-duplicated threat. -/
def ThreatEffect.none : ThreatEffect := ⟨false, false⟩

/-- `OrchestratorAgent._handle_threat`: compute the dedup key; if it occurs
among the `threat_key`s of the last 5 decision records, return with no
alert and no plan; otherwise issue the alert, execute the response when
approved (or when no permission is required), and append a decision
record. `voiceApproved` is the outcome of the permission handshake when
one is required. -/
def handleThreat (hist : List DecisionRecordModel)
    (t : ThreatAssessmentModel) (voiceApproved : Bool) :
    List DecisionRecordModel × ThreatEffect :=
  let key := threatKey t
  let recent := (lastN 5 hist).map (fun d => d.recordKey)
  if recent.contains key then
    (hist, ThreatEffect.none)
  else
    let executedFlag := if t.requiresPermission then voiceApproved else true
    (hist ++ [⟨key, executedFlag⟩], ⟨true, executedFlag⟩)

/-- A parsed action from the preference-parsing / preference-update LLM
calls of `PatternDetectorAgent` (the planner collaborator's output). -/
structure ParsedAction where
  deviceId : String
  action : String
  parameters : List (String × DVal) := []
  delaySeconds : ℚ := 0
deriving DecidableEq

/-- The parse of a user instruction returned by the preference-parsing LLM
call in `learn_user_preference` (trigger and proposed actions). -/
structure ParsedPreference where
  displayName : String
  description : String
  triggerType : String
  triggerValue : String
  actions : List ParsedAction
deriving DecidableEq

/-- The reconciled result of the preference-update (merge) LLM call in
`_update_existing_pattern`; `none` models an LLM failure. -/
structure MergeParsed where
  displayName : String
  description : String
  actions : List ParsedAction
deriving DecidableEq

/-- The `CRITICAL_DEVICE_IDS` safety net of `_create_new_pattern` and
`_update_existing_pattern` (`src/agents/pattern_detector.py`). -/
def PATTERN_CRITICAL_DEVICE_IDS : List String :=
  ["plug_kitchen_fridge", "battery_main"]

/-- The safety filter of both pattern paths: drop any parsed action that
turns `off` a device of `PATTERN_CRITICAL_DEVICE_IDS`, and convert the
survivors to `PatternAction`s. -/
def filterSafeActions (actions : List ParsedAction) : List PatternAction :=
  ((actions.filter (fun a =>
      !(PATTERN_CRITICAL_DEVICE_IDS.contains a.deviceId && a.action == "off"))).map
    (fun a => ⟨a.deviceId, a.action, a.parameters, a.delaySeconds⟩))

/-- `PatternDetectorAgent._find_matching_user_pattern`: the first
user-defined pattern whose trigger `(type, value)` equals the given pair. -/
def findMatchingUserPattern (ps : List DetectedPattern)
    (tt tv : String) : Option DetectedPattern :=
  ps.find? (fun p => p.patternType == PatternType.userDefined &&
    p.trigger.ttype == tt && p.trigger.tvalue == tv)

/-- Result dict of `learn_user_preference` as far as the claims read it. -/
structure LearnResult where
  success : Bool
  patternId : String := ""
  merged : Bool := false
  error : String := ""
deriving DecidableEq

/-- `PatternDetectorAgent._create_new_pattern`: apply the safety filter; if
no action survives, fail; otherwise insert a brand-new user-defined pattern
with a fresh id, `confidence=1.0`, `frequency=1`, `approved=True`, the
parsed trigger, and the user's utterance. -/
def createNewPattern (ps : List DetectedPattern) (parsed : ParsedPreference)
    (userMessage : String) (now : Nat) (newId : String) :
    List DetectedPattern × LearnResult :=
  let actions := filterSafeActions parsed.actions
  if actions.isEmpty then
    (ps, { success := false, error := "No safe device actions could be identified" })
  else
    let pattern : DetectedPattern :=
      { patternId := newId,
        patternType := PatternType.userDefined,
        displayName := parsed.displayName,
        description := parsed.description,
        frequency := 1,
        confidence := 1,
        trigger := ⟨parsed.triggerType, parsed.triggerValue⟩,
        actionSequence := actions,
        approved := true,
        lastOccurrence := now,
        createdAt := now,
        sourceUtterance := userMessage }
    (ps ++ [pattern], { success := true, patternId := newId })

/-- The matching predicate used both by `_find_matching_user_pattern` and to
identify, for in-place mutation, the object that lookup returned. -/
def userPatternMatches (tt tv : String) (p : DetectedPattern) : Bool :=
  p.patternType == PatternType.userDefined &&
    p.trigger.ttype == tt && p.trigger.tvalue == tv

/-- `PatternDetectorAgent._update_existing_pattern`: on LLM failure or when
no action survives the safety filter, fail without touching the store;
otherwise mutate the matched pattern in place — new name, description and
action list, the new utterance appended to `source_utterance` with a
`" | "` separator, `last_occurrence` bumped; `pattern_id`, `approved`,
`created_at`, `frequency`, `confidence` and the trigger are unchanged. -/
def updateExistingPattern (ps : List DetectedPattern) (tt tv : String)
    (existing : DetectedPattern) (userMessage : String)
    (mergeResult : Option MergeParsed) (now : Nat) :
    List DetectedPattern × LearnResult :=
  match mergeResult with
  | none => (ps, { success := false, error := "Could not merge the preference update" })
  | some m =>
    let newActions := filterSafeActions m.actions
    if newActions.isEmpty then
      (ps, { success := false, error := "No safe actions after merge" })
    else
      (updateFirst (userPatternMatches tt tv)
        (fun p =>
          { p with
            displayName := m.displayName,
            description := m.description,
            actionSequence := newActions,
            sourceUtterance := p.sourceUtterance ++ " | " ++ userMessage,
            lastOccurrence := now })
        ps,
       { success := true, patternId := existing.patternId, merged := true })

/-- `PatternDetectorAgent.learn_user_preference`, starting after a
successful parse (`parsed` is the planner collaborator's output; the
parse-failure early return leaves the store untouched): fail if the parse
proposed no action; otherwise merge into an existing user-defined pattern
with the same trigger, or create a new one. -/
def learnUserPreference (ps : List DetectedPattern) (userMessage : String)
    (parsed : ParsedPreference) (mergeResult : Option MergeParsed)
    (now : Nat) (newId : String) : List DetectedPattern × LearnResult :=
  if parsed.actions.isEmpty then
    (ps, { success := false, error := "No device actions could be identified" })
  else
    match findMatchingUserPattern ps parsed.triggerType parsed.triggerValue with
    | some existing =>
        updateExistingPattern ps parsed.triggerType parsed.triggerValue
          existing userMessage mergeResult now
    | none =>
        createNewPattern ps parsed userMessage now newId

/-- The invariant of the pattern store: at most one user-defined pattern per
distinct `(trigger.type, trigger.value)` pair. -/
def atMostOneUserPatternPerTrigger (ps : List DetectedPattern) : Prop :=
  ∀ tt tv, ((ps.filter (userPatternMatches tt tv)).length ≤ 1)

/-! ### Helper lemmas -/

theorem updateFirst_length (pred : α → Bool) (f : α → α) (l : List α) :
    (updateFirst pred f l).length = l.length := by
  induction l with
  | nil => rfl
  | cons x xs ih =>
    simp only [updateFirst]
    split <;> simp [ih]

theorem mem_updateFirst_of_find? (pred : α → Bool) (f : α → α)
    (l : List α) (x : α) (h : l.find? pred = some x) :
    f x ∈ updateFirst pred f l := by
  induction l with
  | nil => simp [List.find?] at h
  | cons y ys ih =>
    rw [List.find?] at h
    by_cases hy : pred y = true
    · simp only [hy] at h
      cases h
      simp [updateFirst, hy]
    · simp only [Bool.not_eq_true] at hy
      simp only [hy] at h
      simp [updateFirst, hy, ih h]

theorem filter_updateFirst_length (pred : α → Bool) (f : α → α)
    (q : α → Bool) (hq : ∀ x, q (f x) = q x) (l : List α) :
    ((updateFirst pred f l).filter q).length = (l.filter q).length := by
  induction l with
  | nil => rfl
  | cons x xs ih =>
    simp only [updateFirst]
    split
    · simp only [List.filter, hq x]
      cases q x <;> simp
    · simp only [List.filter]
      cases q x <;> simp [ih]

theorem mem_drop_append_singleton (x : α) :
    ∀ (l : List α) (i : Nat), i ≤ l.length → x ∈ (l ++ [x]).drop i := by
  intro l
  induction l with
  | nil =>
    intro i hi
    simp only [List.length_nil, Nat.le_zero] at hi
    subst hi
    simp
  | cons y ys ih =>
    intro i hi
    cases i with
    | zero => simp
    | succ j =>
      simp only [List.cons_append, List.drop_succ_cons]
      exact ih j (by simpa using hi)

theorem mem_lastN_append_singleton (n : Nat) (hn : 0 < n)
    (l : List α) (x : α) : x ∈ lastN n (l ++ [x]) := by
  unfold lastN
  apply mem_drop_append_singleton
  simp only [List.length_append, List.length_singleton]
  omega

/-! ### Claim theorems -/

/-- C10: every action of an input plan contributes exactly one entry to
either the executed or the failed list of
`OrchestratorAgent._execute_action_plan`, so the lengths of the two result
lists sum to the length of the input action list. -/
theorem executor_partitions_actions (ps : List DetectedPattern) :
    ∀ (actions : List ActionSpec) (reg : Registry),
      (executeActionPlan ps reg actions).2.1.length +
        (executeActionPlan ps reg actions).2.2.length = actions.length := by
  intro actions
  induction actions with
  | nil => intro reg; rfl
  | cons act rest ih =>
    intro reg
    simp only [executeActionPlan]
    split
    · rcases hrec : executeActionPlan ps reg rest with ⟨r, ex, fl⟩
      have h := ih reg
      rw [hrec] at h
      simp_all
      omega
    · split
      · rcases hrec : executeActionPlan ps reg rest with ⟨r, ex, fl⟩
        have h := ih reg
        rw [hrec] at h
        simp_all
        omega
      · split
        · rcases hrec : executeActionPlan ps reg rest with ⟨r, ex, fl⟩
          have h := ih reg
          rw [hrec] at h
          simp_all
          omega
        · rcases hhse : homeStateExecute reg act.deviceId act.actionName act.parameters with ⟨reg1, res⟩
          rcases hrec : executeActionPlan ps reg1 rest with ⟨r, ex, fl⟩
          have h := ih reg1
          rw [hrec] at h
          simp only at h
          cases hres : res.success <;> simp_all <;> omega

/-- The kitchen-fridge smart plug — the one id in the executor's hardcoded
`_PROTECTED_DEVICE_IDS` — with the smart-plug simulator's initial
properties, powered on. -/
def fridgePlug : Device :=
  ⟨"plug_kitchen_fridge", DeviceType.smartPlug, true, true,
   [("relay_on", DVal.bool true), ("total_kwh_today", DVal.num 0),
    ("voltage", DVal.num 120), ("current_amps", DVal.num 0)],
   PriorityTier.critical⟩

/-- A second smart plug configured with `priority_tier: critical` in the
device YAML (the registry loader accepts any tier for any device), powered
on. Its id is not in the executor's hardcoded protected set. -/
def medicalPlug : Device :=
  ⟨"plug_bedroom_medical", DeviceType.smartPlug, true, true,
   [("relay_on", DVal.bool true), ("total_kwh_today", DVal.num 0),
    ("voltage", DVal.num 120), ("current_amps", DVal.num 0)],
   PriorityTier.critical⟩

/-- C1: the claim says an `off` action on every device whose
`priority_tier` is critical always lands in the failed list as
"BLOCKED (critical device)" and is never executed. The executor's check is
`device_id in self._PROTECTED_DEVICE_IDS`, a hardcoded singleton set, and
never consults priority tiers (`DeviceRegistry.get_critical_device_ids`,
whose doc says critical devices "must never be turned off", is not called
from any enforcement path): here a critical-tier device outside that set
is commanded and its `off` succeeds into the executed list, while the
fridge id is blocked. -/
theorem executor_critical_tier_off_not_blocked :
    medicalPlug.priorityTier = PriorityTier.critical ∧
    getCriticalDeviceIds [fridgePlug, medicalPlug] =
      ["plug_kitchen_fridge", "plug_bedroom_medical"] ∧
    (executeActionPlan [] [fridgePlug, medicalPlug]
        [⟨"plug_bedroom_medical", "off", []⟩,
         ⟨"plug_kitchen_fridge", "off", []⟩]).2 =
      (["plug_bedroom_medical.off"],
       ["plug_kitchen_fridge.off: BLOCKED (critical device)"]) := by
  refine ⟨rfl, by decide, by decide⟩

/-- C3: `_execute_action_plan` processes the actions of a plan in the given
order with no reordering and no early abort — executing `xs ++ ys` equals
executing `xs` and then `ys` from the resulting registry, with the executed
and failed lists concatenated in order; an action with an empty `device_id`
or `action` is rejected with a descriptive failure entry and the remaining
actions are still processed; an unknown device is recorded in the failed
list ("Device not found") and the remaining actions are still processed. -/
theorem executor_in_order_fail_soft (ps : List DetectedPattern) :
    (∀ (reg : Registry) (xs ys : List ActionSpec),
        executeActionPlan ps reg (xs ++ ys) =
          ((executeActionPlan ps (executeActionPlan ps reg xs).1 ys).1,
           (executeActionPlan ps reg xs).2.1 ++
             (executeActionPlan ps (executeActionPlan ps reg xs).1 ys).2.1,
           (executeActionPlan ps reg xs).2.2 ++
             (executeActionPlan ps (executeActionPlan ps reg xs).1 ys).2.2))
    ∧ (∀ (reg : Registry) (act : ActionSpec) (rest : List ActionSpec),
        (act.deviceId = "" ∨ act.actionName = "") →
        executeActionPlan ps reg (act :: rest) =
          ((executeActionPlan ps reg rest).1,
           (executeActionPlan ps reg rest).2.1,
           ("Invalid action spec: " ++ act.deviceId ++ "." ++ act.actionName) ::
             (executeActionPlan ps reg rest).2.2))
    ∧ (∀ (reg : Registry) (act : ActionSpec) (rest : List ActionSpec),
        act.deviceId ≠ "" → act.actionName ≠ "" →
        ¬(PROTECTED_DEVICE_IDS.contains act.deviceId = true ∧ act.actionName = "off") →
        patternBlocked ps act.deviceId act.actionName = false →
        regGet reg act.deviceId = none →
        executeActionPlan ps reg (act :: rest) =
          ((executeActionPlan ps reg rest).1,
           (executeActionPlan ps reg rest).2.1,
           (act.deviceId ++ "." ++ act.actionName ++ ": " ++
              ("Device not found: " ++ act.deviceId)) ::
             (executeActionPlan ps reg rest).2.2)) := by
  refine ⟨?_, ?_, ?_⟩
  · intro reg xs
    induction xs generalizing reg with
    | nil => intro ys; rfl
    | cons act rest ih =>
      intro ys
      simp only [List.cons_append, executeActionPlan, List.append_eq]
      split
      · rw [ih reg]
        rcases executeActionPlan ps reg (rest) with ⟨r, ex, fl⟩
        simp
      · split
        · rw [ih reg]
          rcases executeActionPlan ps reg (rest) with ⟨r, ex, fl⟩
          simp
        · split
          · rw [ih reg]
            rcases executeActionPlan ps reg (rest) with ⟨r, ex, fl⟩
            simp
          · rcases hhse : homeStateExecute reg act.deviceId act.actionName act.parameters with ⟨reg1, res⟩
            simp only
            rw [ih reg1]
            rcases executeActionPlan ps reg1 rest with ⟨r, ex, fl⟩
            cases res.success <;> simp
  · intro reg act rest h
    have hcond : (act.deviceId == "" || act.actionName == "") = true := by
      rcases h with h | h <;> simp [h]
    simp only [executeActionPlan, hcond]
    rcases executeActionPlan ps reg rest with ⟨r, ex, fl⟩
    simp
  · intro reg act rest h1 h2 h3 h4 h5
    have hcond : (act.deviceId == "" || act.actionName == "") = false := by
      simp [h1, h2]
    have hprot : (PROTECTED_DEVICE_IDS.contains act.deviceId && act.actionName == "off") = false := by
      by_cases hc : PROTECTED_DEVICE_IDS.contains act.deviceId = true
      · have hne : act.actionName ≠ "off" := fun he => h3 ⟨hc, he⟩
        simp only [hc, Bool.true_and, beq_eq_false_iff_ne, ne_eq]
        exact hne
      · simp only [Bool.not_eq_true] at hc
        simp only [hc, Bool.false_and]
    simp only [executeActionPlan, hcond, hprot, h4, homeStateExecute, h5]
    rcases executeActionPlan ps reg rest with ⟨r, ex, fl⟩
    simp [ExecResult.fail]

/-- C3 witness: the invalid-spec and unknown-device branches of
`executor_in_order_fail_soft` at concrete inputs. -/
theorem executor_in_order_fail_soft_witness :
    executeActionPlan [] [fridgePlug] [⟨"", "off", []⟩] =
      ([fridgePlug], [], ["Invalid action spec: .off"]) ∧
    executeActionPlan [] [fridgePlug] [⟨"ghost_device", "on", []⟩] =
      ([fridgePlug], [],
       ["ghost_device.on: " ++ ("Device not found: ghost_device")]) := by
  constructor
  · have h := (executor_in_order_fail_soft []).2.1 [fridgePlug]
      ⟨"", "off", []⟩ [] (Or.inl rfl)
    rw [h]
    decide
  · have h := (executor_in_order_fail_soft []).2.2 [fridgePlug]
      ⟨"ghost_device", "on", []⟩ []
      (by decide) (by decide) (by decide) (by decide) (by decide)
    rw [h]
    decide

def wheneverDimDescription : String :=
  "whenever it" ++ String.mk [apos] ++ "s dark, dim the lights"

def wheneverPattern : DetectedPattern :=
  { patternId := "user_dimdark", patternType := PatternType.userDefined,
    displayName := "Dim When Dark", description := wheneverDimDescription,
    frequency := 1, confidence := 1, trigger := ⟨"global", "always"⟩,
    actionSequence := [⟨"light_living_main", "dim", [("brightness", DVal.num 30)], 0⟩],
    approved := true, lastOccurrence := 0, createdAt := 0,
    sourceUtterance := wheneverDimDescription }

def neverUnlockPattern : DetectedPattern :=
  { patternId := "user_neverunlock", patternType := PatternType.userDefined,
    displayName := "Never Unlock Front Door",
    description := "NEVER unlock the front door",
    frequency := 1, confidence := 1, trigger := ⟨"global", "always"⟩,
    actionSequence := [⟨"lock_front_door", "unlock", [], 0⟩],
    approved := true, lastOccurrence := 0, createdAt := 0,
    sourceUtterance := "never unlock the front door" }

def frontDoorLock : Device :=
  ⟨"lock_front_door", DeviceType.lock, true, true,
   [("locked", DVal.bool true), ("battery_pct", DVal.num 95),
    ("auto_lock_seconds", DVal.num 300), ("last_activity", DVal.str "locked")],
   PriorityTier.high⟩

/-- C2: an approved pattern with trigger type "global" contributes its
`action_sequence` pairs to the execution-time block list iff its
description or source utterance contains a whole-word, case-insensitive
prohibition keyword (never / the d-o-n-apostrophe-t contraction / do not /
prohibit / block / prevent / forbid); a blocked pair fails at plan
execution as "BLOCKED (user constraint)" (when the hardcoded critical
check did not already claim it); and a pattern worded "whenever it\x27s
dark, dim the lights" is not a prohibition and contributes no blocked
actions, while "NEVER unlock the front door" blocks
`lock_front_door.unlock`. -/
theorem global_prohibition_blocking_iff :
    (∀ (ps : List DetectedPattern) (d a : String),
        patternBlocked ps d a = true ↔
          ∃ p, p ∈ ps ∧ p.approved = true ∧ p.trigger.ttype = "global" ∧
            isProhibitionPattern p = true ∧
            ∃ act, act ∈ p.actionSequence ∧ act.deviceId = d ∧ act.action = a)
    ∧ (∀ (ps : List DetectedPattern) (reg : Registry) (act : ActionSpec)
          (rest : List ActionSpec),
        act.deviceId ≠ "" → act.actionName ≠ "" →
        ¬(PROTECTED_DEVICE_IDS.contains act.deviceId = true ∧ act.actionName = "off") →
        patternBlocked ps act.deviceId act.actionName = true →
        executeActionPlan ps reg (act :: rest) =
          ((executeActionPlan ps reg rest).1,
           (executeActionPlan ps reg rest).2.1,
           (act.deviceId ++ "." ++ act.actionName ++ ": BLOCKED (user constraint)") ::
             (executeActionPlan ps reg rest).2.2))
    ∧ isProhibitionPattern wheneverPattern = false
    ∧ (∀ d a, patternBlocked [wheneverPattern] d a = false)
    ∧ isProhibitionPattern neverUnlockPattern = true
    ∧ (executeActionPlan [neverUnlockPattern, wheneverPattern] [frontDoorLock]
         [⟨"lock_front_door", "unlock", []⟩]).2 =
        ([], ["lock_front_door.unlock: BLOCKED (user constraint)"]) := by
  refine ⟨?_, ?_, by decide, ?_, by decide, by decide⟩
  · intro ps d a
    simp only [patternBlocked, getGlobalConstraints, List.any_eq_true,
      List.mem_filter, Bool.and_eq_true, beq_iff_eq]
    constructor
    · rintro ⟨p, ⟨hp, hap, hgl⟩, hproh, act, hact, hd, ha⟩
      exact ⟨p, hp, hap, hgl, hproh, act, hact, hd, ha⟩
    · rintro ⟨p, hp, hap, hgl, hproh, act, hact, hd, ha⟩
      exact ⟨p, ⟨hp, hap, hgl⟩, hproh, act, hact, hd, ha⟩
  · intro ps reg act rest h1 h2 h3 h4
    have hcond : (act.deviceId == "" || act.actionName == "") = false := by
      simp [h1, h2]
    have hprot : (PROTECTED_DEVICE_IDS.contains act.deviceId && act.actionName == "off") = false := by
      by_cases hc : PROTECTED_DEVICE_IDS.contains act.deviceId = true
      · have hne : act.actionName ≠ "off" := fun he => h3 ⟨hc, he⟩
        simp only [hc, Bool.true_and, beq_eq_false_iff_ne, ne_eq]
        exact hne
      · simp only [Bool.not_eq_true] at hc
        simp only [hc, Bool.false_and]
    simp only [executeActionPlan, hcond, hprot, h4]
    rcases executeActionPlan ps reg rest with ⟨r, ex, fl⟩
    simp
  · intro d a
    have hglob : getGlobalConstraints [wheneverPattern] = [wheneverPattern] := by decide
    have h : isProhibitionPattern wheneverPattern = false := by decide
    simp [patternBlocked, hglob, h]

/-- C2 witness: `global_prohibition_blocking_iff` applied at the
never-unlock pattern and the concrete blocked plan. -/
theorem global_prohibition_blocking_iff_witness :
    patternBlocked [neverUnlockPattern, wheneverPattern]
      "lock_front_door" "unlock" = true ∧
    executeActionPlan [neverUnlockPattern] [frontDoorLock]
      [⟨"lock_front_door", "unlock", []⟩] =
      ([frontDoorLock], [],
       ["lock_front_door.unlock: BLOCKED (user constraint)"]) := by
  constructor
  · exact (global_prohibition_blocking_iff.1 _ _ _).mpr
      ⟨neverUnlockPattern, by decide, rfl, rfl, by decide,
       ⟨"lock_front_door", "unlock", [], 0⟩, by decide, rfl, rfl⟩
  · have h := global_prohibition_blocking_iff.2.1 [neverUnlockPattern]
      [frontDoorLock] ⟨"lock_front_door", "unlock", []⟩ []
      (by decide) (by decide) (by decide) (by decide)
    rw [h]
    decide

/-- C4: an approval-requiring alert registers exactly one pending wait keyed
by its (fresh) alert id; with no response inside the 60-second window
(`asyncio.wait_for(..., timeout=60.0)`) the wait resolves exactly once as
`approved=False` with the timed-out marker, the pending entry is removed
and a timeout notification is broadcast; a permission response addressed to
an id with no pending entry is rejected as a failure without changing
state; hence a timed-out alert can never be resolved a second time. -/
theorem permission_wait_timeout_single_resolution :
    permissionTimeoutSeconds = 60
    ∧ (∀ (st : VoiceState) (aid : String),
        aid ∉ st.pendingPermissions →
        (registerPermissionWait st aid).pendingPermissions.count aid = 1)
    ∧ (∀ (st : VoiceState) (aid : String),
        (resolvePermissionTimeout st aid).2.1 =
          ⟨aid, false, true⟩ ∧
        (resolvePermissionTimeout st aid).2.2 = true ∧
        (st.pendingPermissions.count aid ≤ 1 →
          aid ∉ (resolvePermissionTimeout st aid).1.pendingPermissions))
    ∧ (∀ (st : VoiceState) (aid : String) (approved : Bool),
        aid ∉ st.pendingPermissions →
        handlePermissionResponse st aid approved = (st, false, none))
    ∧ (∀ (st : VoiceState) (aid : String) (approved : Bool),
        st.pendingPermissions.count aid ≤ 1 →
        handlePermissionResponse (resolvePermissionTimeout st aid).1 aid approved =
          ((resolvePermissionTimeout st aid).1, false, none)) := by
  refine ⟨rfl, ?_, ?_, ?_, ?_⟩
  · intro st aid h
    simp [registerPermissionWait, List.count_append, List.count_eq_zero_of_not_mem h]
  · intro st aid
    refine ⟨rfl, rfl, ?_⟩
    intro hle
    simp only [resolvePermissionTimeout]
    intro hmem
    have := List.count_pos_iff.mpr hmem
    rw [List.count_erase_self] at this
    omega
  · intro st aid approved h
    have : st.pendingPermissions.contains aid = false := by
      simpa using h
    simp [handlePermissionResponse, this, h]
  · intro st aid approved hle
    have hnotmem : aid ∉ (resolvePermissionTimeout st aid).1.pendingPermissions := by
      simp only [resolvePermissionTimeout]
      intro hmem
      have := List.count_pos_iff.mpr hmem
      rw [List.count_erase_self] at this
      omega
    have : (resolvePermissionTimeout st aid).1.pendingPermissions.contains aid = false := by
      simpa using hnotmem
    simp [handlePermissionResponse, this, hnotmem]

/-- C4 witness: `permission_wait_timeout_single_resolution` at a concrete
alert id, empty and singleton pending sets. -/
theorem permission_wait_timeout_single_resolution_witness :
    (registerPermissionWait ⟨[]⟩ "alert1").pendingPermissions.count "alert1" = 1 ∧
    (resolvePermissionTimeout ⟨["alert1"]⟩ "alert1").2.1 =
      ⟨"alert1", false, true⟩ ∧
    handlePermissionResponse ⟨["other"]⟩ "alert1" true =
      (⟨["other"]⟩, false, none) ∧
    handlePermissionResponse (resolvePermissionTimeout ⟨["alert1"]⟩ "alert1").1
        "alert1" true =
      ((resolvePermissionTimeout ⟨["alert1"]⟩ "alert1").1, false, none) := by
  refine ⟨permission_wait_timeout_single_resolution.2.1 ⟨[]⟩ "alert1" (by decide),
          (permission_wait_timeout_single_resolution.2.2.1 ⟨["alert1"]⟩ "alert1").1,
          permission_wait_timeout_single_resolution.2.2.2.1 ⟨["other"]⟩ "alert1" true (by decide),
          permission_wait_timeout_single_resolution.2.2.2.2 ⟨["alert1"]⟩ "alert1" true (by decide)⟩

/-- C5: `_handle_threat` keys de-duplication on the concatenation of threat
type and level (joined by an underscore, `f"{type}_{level}"`); when that key
occurs among the `threat_key`s of the last 5 decision records the call
skips handling entirely — no alert, no plan, history unchanged; and for a
fresh key the first call alerts and appends its record, so a second call
with the same (type, level) within the 5-record window is a no-op: exactly
one response for two issuances. -/
theorem threat_dedup_last_five :
    (∀ t : ThreatAssessmentModel,
        threatKey t = t.threatType ++ "_" ++ t.threatLevel)
    ∧ (∀ (hist : List DecisionRecordModel) (t : ThreatAssessmentModel)
          (ap : Bool),
        threatKey t ∈ (lastN 5 hist).map (fun d => d.recordKey) →
        handleThreat hist t ap = (hist, ThreatEffect.none))
    ∧ (∀ (hist : List DecisionRecordModel) (t : ThreatAssessmentModel)
          (ap ap2 : Bool),
        threatKey t ∉ (lastN 5 hist).map (fun d => d.recordKey) →
        (handleThreat hist t ap).2.alertIssued = true ∧
        handleThreat (handleThreat hist t ap).1 t ap2 =
          ((handleThreat hist t ap).1, ThreatEffect.none)) := by
  refine ⟨fun t => rfl, ?_, ?_⟩
  · intro hist t ap h
    have hc : ((lastN 5 hist).map (fun d => d.recordKey)).contains (threatKey t) = true := by
      simpa using h
    simp only [handleThreat, hc, eq_self_iff_true, if_true]
  · intro hist t ap ap2 h
    have hc : ((lastN 5 hist).map (fun d => d.recordKey)).contains (threatKey t) = false := by
      simpa using h
    have h1 : handleThreat hist t ap =
        (hist ++ [⟨threatKey t, if t.requiresPermission then ap else true⟩],
         ⟨true, if t.requiresPermission then ap else true⟩) := by
      simp only [handleThreat, hc, Bool.false_eq_true, if_false]
    refine ⟨by rw [h1], ?_⟩
    rw [h1]
    have hmem : (⟨threatKey t, if t.requiresPermission then ap else true⟩ : DecisionRecordModel) ∈
        lastN 5 (hist ++ [⟨threatKey t, if t.requiresPermission then ap else true⟩]) :=
      mem_lastN_append_singleton 5 (by omega) hist _
    have hkey : threatKey t ∈
        (lastN 5 (hist ++ [⟨threatKey t, if t.requiresPermission then ap else true⟩])).map
          (fun d => d.recordKey) :=
      List.mem_map.mpr ⟨_, hmem, rfl⟩
    have hc2 : ((lastN 5 (hist ++ [⟨threatKey t, if t.requiresPermission then ap else true⟩])).map
        (fun d => d.recordKey)).contains (threatKey t) = true := by
      simpa using hkey
    simp only [handleThreat, hc2, eq_self_iff_true, if_true]

/-- C5 witness: `threat_dedup_last_five` for the (heat_wave, high) threat —
a duplicate within the window is skipped, and issuing the same threat twice
from fresh history performs exactly one response. -/
theorem threat_dedup_last_five_witness :
    handleThreat [⟨"heat_wave_high", true⟩] ⟨"heat_wave", "high", true⟩ true =
      ([⟨"heat_wave_high", true⟩], ThreatEffect.none) ∧
    (handleThreat [] ⟨"heat_wave", "high", true⟩ true).2.alertIssued = true ∧
    handleThreat (handleThreat [] ⟨"heat_wave", "high", true⟩ true).1
        ⟨"heat_wave", "high", true⟩ true =
      ((handleThreat [] ⟨"heat_wave", "high", true⟩ true).1, ThreatEffect.none) := by
  refine ⟨threat_dedup_last_five.2.1 _ _ _ (by decide),
         (threat_dedup_last_five.2.2 [] ⟨"heat_wave", "high", true⟩ true true (by decide)).1,
         (threat_dedup_last_five.2.2 [] ⟨"heat_wave", "high", true⟩ true true (by decide)).2⟩

/-- The living-room light at `{power: true, brightness: 80}` with the light
simulator's remaining initial properties. -/
def livingLight : Device :=
  ⟨"light_living_main", DeviceType.light, true, true,
   [("brightness", DVal.num 80), ("color", DVal.rgb 255 255 255),
    ("color_temp_k", DVal.num 4000)],
   PriorityTier.medium⟩

/-- A thermostat in heat mode targeting 75F (simulator property keys
`target_temp_f` / `mode`). -/
def livingThermostat : Device :=
  ⟨"therm_living", DeviceType.thermostat, true, true,
   [("current_temp_f", DVal.num 72), ("target_temp_f", DVal.num 75),
    ("mode", DVal.str "heat"), ("fan", DVal.str "auto"),
    ("humidity_pct", DVal.num 45)],
   PriorityTier.high⟩

/-- The registry in normal mode, before the excursion. -/
def normalRegistry : Registry := [livingLight, livingThermostat]

/-- The snapshot taken on leaving normal mode. -/
def normalSnapshot : List (String × SnapEntry) :=
  snapshotDeviceStates normalRegistry

/-- The sleep-mode excursion: all lights off, thermostat lowered to 68F and
set to auto (the sleep branch of `_fallback_mode_transition`). -/
def sleepRegistry : Registry :=
  let r1 := (homeStateExecute normalRegistry "light_living_main" "off" []).1
  let r2 := (homeStateExecute r1 "therm_living" "set_temperature"
    [("temperature", DVal.num 68)]).1
  (homeStateExecute r2 "therm_living" "set_mode" [("mode", DVal.str "auto")]).1

/-- The registry after transitioning back to normal and running
`_restore_from_snapshot`. -/
def restoredRegistry : Registry :=
  (restoreFromSnapshot sleepRegistry normalSnapshot).1

/-- C6: the normal → sleep → normal round trip restores `light_living_main`
to exactly `{power: true, brightness: 80}`, and the thermostat's saved mode
is re-applied — but the claim's "always re-applies saved thermostat target
temperature" fails: the restore code looks up the key `"target_temperature"`
in the saved properties while the thermostat simulator stores its target
under `"target_temp_f"`, so `set_temperature` is never issued during
restore and the target stays at the excursion value 68 instead of the
saved 75. -/
theorem restore_thermostat_target_not_reapplied :
    (regGet restoredRegistry "light_living_main").map
        (fun d => (d.power, getNumD d.props "brightness" 0)) = some (true, 80) ∧
    ((normalSnapshot.find? (fun e => e.1 == "therm_living")).map
        (fun e => getNumD e.2.properties "target_temp_f" 0)) = some 75 ∧
    (regGet sleepRegistry "therm_living").map
        (fun d => getNumD d.props "target_temp_f" 0) = some 68 ∧
    (regGet restoredRegistry "therm_living").map
        (fun d => getStrD d.props "mode" "") = some "heat" ∧
    (regGet restoredRegistry "therm_living").map
        (fun d => getNumD d.props "target_temp_f" 0) = some 68 := by
  refine ⟨by decide, by decide, by decide, by decide, by decide⟩

/-- The snapshot taken while the fridge plug was off (smart-plug off-state
properties), used to drive a restore over a registry where it is on. -/
def fridgeOffSnapshot : List (String × SnapEntry) :=
  [("plug_kitchen_fridge",
    ⟨false,
     [("relay_on", DVal.bool false), ("total_kwh_today", DVal.num 0),
      ("voltage", DVal.num 120), ("current_amps", DVal.num 0)],
     DeviceType.smartPlug⟩)]

/-- C7 counterexample: the claim says every device command issued during
snapshot restoration passes through the constraint-filtered plan executor.
Here a snapshot in which the protected fridge was off restores over a
registry where it is on: `_restore_from_snapshot` issues
`plug_kitchen_fridge.off` directly through
`home_state_agent.execute_action` and powers the fridge down, while the
plan executor fails the very same action as "BLOCKED (critical device)". -/
theorem restore_bypasses_executor_cex :
    (restoreFromSnapshot [fridgePlug] fridgeOffSnapshot).2 =
      ["plug_kitchen_fridge.off"] ∧
    (regGet (restoreFromSnapshot [fridgePlug] fridgeOffSnapshot).1
        "plug_kitchen_fridge").map (fun d => d.power) = some false ∧
    (executeActionPlan [] [fridgePlug] [⟨"plug_kitchen_fridge", "off", []⟩]).2 =
      ([], ["plug_kitchen_fridge.off: BLOCKED (critical device)"]) := by
  refine ⟨by decide, by decide, by decide⟩

/-- C7 amended: device commands issued during snapshot restoration are sent
directly to the home-state execute path and do not pass through the
constraint-filtered plan executor; neither the hardcoded protected-device
check nor the pattern-derived block list is consulted, so a smart plug that
was off in the snapshot is commanded off on restore whatever its id and
whatever prohibition patterns exist (the statement mentions no pattern list
because restore never reads one). -/
theorem restore_direct_execution_unfiltered (d : Device) (saved : SnapEntry)
    (h1 : d.dtype = DeviceType.smartPlug) (h2 : d.online = true)
    (h3 : d.power = true) (h4 : saved.power = false) :
    restoreFromSnapshot [d] [(d.deviceId, saved)] =
      ([{ d with
            power := false
            props := setProp (setProp d.props "relay_on" (DVal.bool false))
              "current_amps" (DVal.num 0) }],
       [d.deviceId ++ ".off"]) := by
  simp [restoreFromSnapshot, restoreEntry, regGet, List.find?, h1, h2, h3, h4,
    homeStateExecute, deviceExecuteAction, processAction, smartPlugProcess,
    regPut, updateFirst, ExecResult.ok]

/-- C7 witness: `restore_direct_execution_unfiltered` applied to the
protected fridge plug itself. -/
theorem restore_direct_execution_unfiltered_witness :
    restoreFromSnapshot [fridgePlug]
      [(fridgePlug.deviceId, ⟨false, [], DeviceType.smartPlug⟩)] =
      ([{ fridgePlug with
            power := false
            props := setProp (setProp fridgePlug.props "relay_on" (DVal.bool false))
              "current_amps" (DVal.num 0) }],
       [fridgePlug.deviceId ++ ".off"]) :=
  restore_direct_execution_unfiltered fridgePlug ⟨false, [], DeviceType.smartPlug⟩
    rfl rfl rfl rfl

/-- C9: a newly created user-taught pattern (`_create_new_pattern`) has
`confidence=1.0`, `frequency=1` and `approved=True` immediately;
statistically-detected patterns are constructed without `approved` and so
start `approved=False`; and `is_ready_to_suggest` holds unconditionally for
user-defined patterns while any other pattern is ready iff
`frequency >= 3` and `confidence >= 0.8`. -/
theorem pattern_create_defaults_and_readiness :
    (∀ (ps : List DetectedPattern) (parsed : ParsedPreference)
        (msg : String) (now : Nat) (nid : String),
      filterSafeActions parsed.actions ≠ [] →
      ∃ p, (createNewPattern ps parsed msg now nid).1 = ps ++ [p] ∧
        p.confidence = 1 ∧ p.frequency = 1 ∧ p.approved = true ∧
        p.patternType = PatternType.userDefined ∧ p.patternId = nid)
    ∧ (∀ (pid : String) (ptype : PatternType) (name desc : String)
        (freq : Nat) (conf : ℚ) (trigger : TriggerConditions)
        (actions : List PatternAction),
        (mkStatisticalPattern pid ptype name desc freq conf trigger
          actions).approved = false)
    ∧ (∀ p : DetectedPattern, p.patternType = PatternType.userDefined →
        isReadyToSuggest p = true)
    ∧ (∀ p : DetectedPattern, p.patternType ≠ PatternType.userDefined →
        (isReadyToSuggest p = true ↔
          3 ≤ p.frequency ∧ (0.8 : ℚ) ≤ p.confidence)) := by
  refine ⟨?_, fun _ _ _ _ _ _ _ _ => rfl, ?_, ?_⟩
  · intro ps parsed msg now nid h
    have hne : (filterSafeActions parsed.actions).isEmpty = false := by
      cases he : filterSafeActions parsed.actions with
      | nil => exact absurd he h
      | cons x xs => rfl
    refine ⟨{ patternId := nid, patternType := PatternType.userDefined,
              displayName := parsed.displayName,
              description := parsed.description, frequency := 1,
              confidence := 1,
              trigger := ⟨parsed.triggerType, parsed.triggerValue⟩,
              actionSequence := filterSafeActions parsed.actions,
              approved := true, lastOccurrence := now, createdAt := now,
              sourceUtterance := msg }, ?_, rfl, rfl, rfl, rfl, rfl⟩
    simp only [createNewPattern, hne, Bool.false_eq_true, if_false]
  · intro p h
    simp [isReadyToSuggest, h]
  · intro p h
    have hb : (p.patternType == PatternType.userDefined) = false := by
      simpa using h
    simp [isReadyToSuggest, hb]

/-- The parse of "when I have a meeting, turn on the office light". -/
def officeParsed : ParsedPreference :=
  ⟨"Office Meeting Light", "Turn on the office light for meetings",
   "calendar_mode", "do_not_disturb",
   [⟨"light_office_main", "on", [("brightness", DVal.num 80)], 0⟩]⟩

/-- C9 witness: `pattern_create_defaults_and_readiness` at a concrete
creation and a statistically-detected pattern at the readiness threshold. -/
theorem pattern_create_defaults_and_readiness_witness :
    (∃ p, (createNewPattern [] officeParsed
        "when I have a meeting, turn on the office light" 0 "user_abc123").1 =
        [] ++ [p] ∧
      p.confidence = 1 ∧ p.frequency = 1 ∧ p.approved = true ∧
      p.patternType = PatternType.userDefined ∧ p.patternId = "user_abc123") ∧
    isReadyToSuggest (mkStatisticalPattern "routine_0001" PatternType.routine
      "Morning routine" "Repeated sequence" 3 (9/10) ⟨"hour", "7"⟩ []) = true := by
  constructor
  · exact pattern_create_defaults_and_readiness.1 [] officeParsed
      "when I have a meeting, turn on the office light" 0 "user_abc123" (by decide)
  · exact (pattern_create_defaults_and_readiness.2.2.2 _ (by decide)).mpr
      ⟨by simp [mkStatisticalPattern], by simp [mkStatisticalPattern]; norm_num⟩

theorem filter_singleton_length_le_one (q : α → Bool) (x : α) :
    (List.filter q [x]).length ≤ 1 := by
  simp only [List.filter]
  cases q x <;> simp

/-- C8: `learn_user_preference` maintains the invariant that at most one
user-defined pattern exists per distinct `(trigger.type, trigger.value)`
pair; and when a user-defined pattern with the parsed trigger already
exists, the instruction merges into it in place — the store keeps its
size (no second pattern is created), the result reports the existing
`pattern_id` as merged, and the updated pattern keeps its `pattern_id`,
`approved`, `created_at`, frequency and trigger while the new utterance is
appended to its `source_utterance` trail and `last_occurrence` is bumped
to now. -/
theorem user_pattern_merge_invariant :
    (∀ (ps : List DetectedPattern) (msg : String) (parsed : ParsedPreference)
        (mergeResult : Option MergeParsed) (now : Nat) (nid : String),
      atMostOneUserPatternPerTrigger ps →
      atMostOneUserPatternPerTrigger
        (learnUserPreference ps msg parsed mergeResult now nid).1)
    ∧ (∀ (ps : List DetectedPattern) (msg : String) (parsed : ParsedPreference)
        (m : MergeParsed) (now : Nat) (nid : String)
        (existing : DetectedPattern),
      findMatchingUserPattern ps parsed.triggerType parsed.triggerValue =
        some existing →
      parsed.actions ≠ [] →
      filterSafeActions m.actions ≠ [] →
      (learnUserPreference ps msg parsed (some m) now nid).1.length = ps.length ∧
      (learnUserPreference ps msg parsed (some m) now nid).2 =
        { success := true, patternId := existing.patternId, merged := true } ∧
      ∃ p, p ∈ (learnUserPreference ps msg parsed (some m) now nid).1 ∧
        p.patternId = existing.patternId ∧
        p.approved = existing.approved ∧
        p.createdAt = existing.createdAt ∧
        p.frequency = existing.frequency ∧
        p.trigger = existing.trigger ∧
        p.sourceUtterance = existing.sourceUtterance ++ " | " ++ msg ∧
        p.lastOccurrence = now) := by
  constructor
  · intro ps msg parsed mergeResult now nid h
    unfold learnUserPreference
    split
    · exact h
    · split
      · rename_i existing hfind
        unfold updateExistingPattern
        match mergeResult with
        | none => exact h
        | some m =>
          simp only
          split
          · exact h
          · intro tt tv
            have hpres : ∀ p : DetectedPattern,
                userPatternMatches tt tv
                  ({ p with displayName := m.displayName,
                            description := m.description,
                            actionSequence := filterSafeActions m.actions,
                            sourceUtterance := p.sourceUtterance ++ " | " ++ msg,
                            lastOccurrence := now }) =
                  userPatternMatches tt tv p := fun p => rfl
            rw [filter_updateFirst_length _ _ _ hpres]
            exact h tt tv
      · rename_i hfind
        unfold createNewPattern
        dsimp only
        split
        · exact h
        · intro tt tv
          rw [List.filter_append]
          by_cases htt : parsed.triggerType = tt ∧ parsed.triggerValue = tv
          · obtain ⟨h1, h2⟩ := htt
            subst h1
            subst h2
            have hnil : ps.filter
                (userPatternMatches parsed.triggerType parsed.triggerValue) = [] := by
              rw [List.filter_eq_nil_iff]
              intro p hp
              exact List.find?_eq_none.mp hfind p hp
            rw [hnil, List.nil_append]
            exact filter_singleton_length_le_one _ _
          · have hq : userPatternMatches tt tv
                ({ patternId := nid, patternType := PatternType.userDefined,
                   displayName := parsed.displayName,
                   description := parsed.description, frequency := 1,
                   confidence := 1,
                   trigger := ⟨parsed.triggerType, parsed.triggerValue⟩,
                   actionSequence := filterSafeActions parsed.actions,
                   approved := true, lastOccurrence := now, createdAt := now,
                   sourceUtterance := msg } : DetectedPattern) = false := by
              simp only [userPatternMatches, beq_self_eq_true, Bool.true_and,
                Bool.and_eq_false_iff, beq_eq_false_iff_ne, ne_eq]
              by_cases h1 : parsed.triggerType = tt
              · right
                exact fun h2 => htt ⟨h1, h2⟩
              · left
                exact h1
            simp only [List.filter, hq]
            simpa using h tt tv
  · intro ps msg parsed m now nid existing hfind hact hsafe
    have hemp : parsed.actions.isEmpty = false := by
      cases he : parsed.actions with
      | nil => exact absurd he hact
      | cons x xs => rfl
    have hne : (filterSafeActions m.actions).isEmpty = false := by
      cases he : filterSafeActions m.actions with
      | nil => exact absurd he hsafe
      | cons x xs => rfl
    have hlearn : learnUserPreference ps msg parsed (some m) now nid =
        (updateFirst (userPatternMatches parsed.triggerType parsed.triggerValue)
           (fun p =>
             { p with
                 displayName := m.displayName
                 description := m.description
                 actionSequence := filterSafeActions m.actions
                 sourceUtterance := p.sourceUtterance ++ " | " ++ msg
                 lastOccurrence := now })
           ps,
         { success := true, patternId := existing.patternId, merged := true }) := by
      simp only [learnUserPreference, hemp, Bool.false_eq_true, if_false, hfind,
        updateExistingPattern, hne]
    rw [hlearn]
    refine ⟨updateFirst_length _ _ _, rfl, ?_⟩
    have hfind' : ps.find?
        (userPatternMatches parsed.triggerType parsed.triggerValue) =
        some existing := hfind
    exact ⟨_, mem_updateFirst_of_find? _ _ _ _ hfind',
      rfl, rfl, rfl, rfl, rfl, rfl, rfl⟩

/-- An existing user-taught pattern for the (calendar_mode, do_not_disturb)
trigger. -/
def existingMeetingPattern : DetectedPattern :=
  { patternId := "user_meeting1", patternType := PatternType.userDefined,
    displayName := "Office Meeting Light",
    description := "Turn on the office light for meetings",
    frequency := 1, confidence := 1,
    trigger := ⟨"calendar_mode", "do_not_disturb"⟩,
    actionSequence := [⟨"light_office_main", "on", [("brightness", DVal.num 80)], 0⟩],
    approved := true, lastOccurrence := 0, createdAt := 0,
    sourceUtterance := "when I have a meeting, turn on the office light" }

/-- The planner's reconciled action list for "also lock the front door when
in a meeting": both the existing office-light action and the new lock. -/
def lockDoorMerge : MergeParsed :=
  ⟨"Meeting Setup", "Office light on and front door locked for meetings",
   [⟨"light_office_main", "on", [("brightness", DVal.num 80)], 0⟩,
    ⟨"lock_front_door", "lock", [], 0⟩]⟩

/-- C8 witness: `user_pattern_merge_invariant` at a concrete merge of a
second instruction into the existing meeting pattern. -/
theorem user_pattern_merge_invariant_witness :
    atMostOneUserPatternPerTrigger
      (learnUserPreference [existingMeetingPattern]
        "also lock the front door when in a meeting" officeParsed
        (some lockDoorMerge) 5 "user_newid").1 ∧
    (learnUserPreference [existingMeetingPattern]
        "also lock the front door when in a meeting" officeParsed
        (some lockDoorMerge) 5 "user_newid").1.length =
      [existingMeetingPattern].length ∧
    (learnUserPreference [existingMeetingPattern]
        "also lock the front door when in a meeting" officeParsed
        (some lockDoorMerge) 5 "user_newid").2 =
      { success := true, patternId := "user_meeting1", merged := true } := by
  have h := user_pattern_merge_invariant.2 [existingMeetingPattern]
    "also lock the front door when in a meeting" officeParsed lockDoorMerge
    5 "user_newid" existingMeetingPattern (by decide) (by decide) (by decide)
  exact ⟨user_pattern_merge_invariant.1 [existingMeetingPattern]
           "also lock the front door when in a meeting" officeParsed
           (some lockDoorMerge) 5 "user_newid"
           (fun tt tv => filter_singleton_length_le_one _ _),
         h.1, h.2.1⟩
